import Mathlib

/-!
Verification of the Kubernetes port-forward module of the garden repository.

The development shallowly embeds, from the source file:
- the forwardable-port resolver (getForwardablePorts, matchesService),
- the port-forward registry and its cleanup hook (getPortForward,
  killPortForward, the kill-port-forward-procs cleanup function),
- the per-tunnel creation event handlers (the close, error, stdout and
  stderr handlers installed inside getPortForward, together with the
  sleep-then-resolve step), modelled as a step function on an explicit
  creation state.

JavaScript objects keyed by strings are modelled as association lists, and
JavaScript truthiness of the port values flowing through matchesService is
modelled explicitly at each use site.
-/

/-- Character-list prefix test, auxiliary for the substring test. -/
def leadsWith : List Char → List Char → Bool
  | [], _ => true
  | _ :: _, [] => false
  | a :: as, b :: bs => a == b && leadsWith as bs

/-- Character-list substring test, auxiliary for strIncludes. -/
def charsInclude (pat : List Char) : List Char → Bool
  | [] => leadsWith pat []
  | c :: rest => leadsWith pat (c :: rest) || charsInclude pat rest

/-- JavaScript String.prototype.includes: does s contain pat as a substring. -/
def strIncludes (s pat : String) : Bool :=
  charsInclude pat.data s.data

/-- Association-list lookup, modelling indexing a JavaScript object by a key. -/
def lookupKey {α : Type} : List (String × α) → String → Option α
  | [], _ => none
  | (k, v) :: rest, key => if k = key then some v else lookupKey rest key

/-- Removal of a key, modelling the delete operator on a JavaScript object. -/
def eraseKey {α : Type} (reg : List (String × α)) (key : String) : List (String × α) :=
  reg.filter (fun e => !(e.1 == key))

/-- Keyed insertion, modelling assignment to a key of a JavaScript object.
The order of entries is immaterial to every property stated below. -/
def insertKey {α : Type} (reg : List (String × α)) (key : String) (v : α) :
    List (String × α) :=
  (key, v) :: eraseKey reg key

/-- Association lookup for label maps (selector and label objects). -/
def lookupStr : List (String × String) → String → Option String
  | [], _ => none
  | (k, v) :: rest, key => if k = key then some v else lookupStr rest key

/-- Modelled from the spec: the label-selector matching utility matchSelector,
imported by the source from "./util" but itself not among the sources.
The spec describes it as a strict subset test: every selector key/value pair
must appear in the pod labels. -/
def matchSelector (selector labels : List (String × String)) : Bool :=
  selector.all (fun kv => decide (lookupStr labels kv.1 = some kv.2))

/-- Kubernetes IntOrString values, the type of the targetPort of a Service port. -/
inductive IntOrString where
  | num (n : Nat)
  | str (s : String)
deriving DecidableEq

/-- One entry of the ports list of a Service spec (V1ServicePort). -/
structure ServicePort where
  name : Option String
  port : Nat
  targetPort : Option IntOrString
deriving DecidableEq

/-- One entry of the ports list of a container (V1ContainerPort). -/
structure ContainerPort where
  name : Option String
  containerPort : Nat
deriving DecidableEq

/-- A container of a pod template, keeping only the field the resolver reads. -/
structure Container where
  ports : Option (List ContainerPort)
deriving DecidableEq

/-- The pod template of a workload: its metadata labels and its containers. -/
structure PodTemplate where
  labels : Option (List (String × String))
  containers : Option (List Container)
deriving DecidableEq

/-- A cluster resource as the resolver reads it: the result of the external
isBuiltIn predicate is carried as input data, and the spec fields of the
Service and workload shapes are flattened into one record, mirroring the
duck-typed JavaScript objects. -/
structure KubernetesResource where
  builtIn : Bool
  kind : String
  name : String
  selector : Option (List (String × String))
  ports : Option (List ServicePort)
  template : PodTemplate
deriving DecidableEq

/-- A forwardable port entry as emitted by the resolver. -/
structure ForwardablePort where
  name : Option String
  protocol : String
  targetName : String
  targetPort : Nat
deriving DecidableEq

/-- The entries the resolver emits for one Service resource: one per declared
port, mirroring the first loop of getForwardablePorts. -/
def serviceForwardEntries (service : KubernetesResource) : List ForwardablePort :=
  (service.ports.getD []).map (fun portSpec =>
    { name := portSpec.name, protocol := "TCP",
      targetName := "Service/" ++ service.name, targetPort := portSpec.port })

/-- The matchesService closure of getForwardablePorts: is some Service whose
selector matches the pod template labels declaring a port whose targetPort,
cast to a number, is truthy and strictly equal to the container port.  A
missing targetPort is falsy, a string targetPort compares unequal to a
number under strict equality, and the number 0 is falsy. -/
def matchesService (services : List KubernetesResource) (podTemplate : PodTemplate)
    (portSpec : ContainerPort) : Bool :=
  services.any (fun service =>
    matchSelector (service.selector.getD []) (podTemplate.labels.getD []) &&
      (service.ports.getD []).any (fun servicePort =>
        match servicePort.targetPort with
        | some (.num n) => !(n == 0) && n == portSpec.containerPort
        | _ => false))

/-- The entries the resolver emits for one Deployment/DaemonSet resource:
every container port of the pod template that no matching Service already
points to, mirroring the second loop of getForwardablePorts. -/
def workloadForwardEntries (services : List KubernetesResource)
    (workload : KubernetesResource) : List ForwardablePort :=
  ((((workload.template.containers.getD []).flatMap (fun c => c.ports.getD []))).filter
      (fun ps => !matchesService services workload.template ps)).map
    (fun ps =>
      { name := ps.name, protocol := "TCP",
        targetName := workload.kind ++ "/" ++ workload.name,
        targetPort := ps.containerPort })

/-- getForwardablePorts from the source: Service entries first, then the
workload entries not already covered by a Service.  The workload filter keeps
the operator precedence of the source: a DaemonSet is included whether or not it
is built-in. -/
def getForwardablePorts (resources : List KubernetesResource) : List ForwardablePort :=
  (resources.filter (fun r => r.builtIn && r.kind == "Service")).flatMap
      serviceForwardEntries ++
    (resources.filter (fun r => (r.builtIn && r.kind == "Deployment") || r.kind == "DaemonSet")).flatMap
      (workloadForwardEntries (resources.filter (fun r => r.builtIn && r.kind == "Service")))

/-- The suppression condition exactly as claim C1 states it: some Service
whose selector matches the pod template labels has a port whose target port
equals the container port. -/
def specSuppresses (services : List KubernetesResource) (podTemplate : PodTemplate)
    (portSpec : ContainerPort) : Bool :=
  services.any (fun service =>
    matchSelector (service.selector.getD []) (podTemplate.labels.getD []) &&
      (service.ports.getD []).any (fun sp =>
        match sp.targetPort with
        | some (.num n) => n == portSpec.containerPort
        | _ => false))

/-- The amended suppression condition, following the spec words corrected at
zero ports: some Service whose selector matches the pod template labels has a
port whose target port is a nonzero number equal to the container port. -/
def specSuppressesAmended (services : List KubernetesResource) (podTemplate : PodTemplate)
    (portSpec : ContainerPort) : Bool :=
  services.any (fun service =>
    matchSelector (service.selector.getD []) (podTemplate.labels.getD []) &&
      (service.ports.getD []).any (fun sp =>
        match sp.targetPort with
        | some (.num n) => n == portSpec.containerPort && !(portSpec.containerPort == 0)
        | _ => false))

/-- The workload entries as the (amended) spec describes them, to be compared
with workloadForwardEntries. -/
def specWorkloadEntries (services : List KubernetesResource)
    (workload : KubernetesResource) : List ForwardablePort :=
  ((((workload.template.containers.getD []).flatMap (fun c => c.ports.getD []))).filter
      (fun ps => !specSuppressesAmended services workload.template ps)).map
    (fun ps =>
      { name := ps.name, protocol := "TCP",
        targetName := workload.kind ++ "/" ++ workload.name,
        targetPort := ps.containerPort })

/-- The resolver as the (amended) spec describes it, section 4.3 of the spec,
to be compared with getForwardablePorts. -/
def specResolveAmended (resources : List KubernetesResource) : List ForwardablePort :=
  (resources.filter (fun r => r.builtIn && r.kind == "Service")).flatMap
      serviceForwardEntries ++
    (resources.filter (fun r => (r.builtIn && r.kind == "Deployment") || r.kind == "DaemonSet")).flatMap
      (specWorkloadEntries (resources.filter (fun r => r.builtIn && r.kind == "Service")))

/-- The Service web of the spec example: selector app=web, port 8080 to 8080. -/
def webService : KubernetesResource :=
  { builtIn := true, kind := "Service", name := "web",
    selector := some [("app", "web")],
    ports := some [{ name := none, port := 8080, targetPort := some (.num 8080) }],
    template := { labels := none, containers := none } }

/-- The Deployment web of the spec example: labels app=web, container port 8080. -/
def webDeployment : KubernetesResource :=
  { builtIn := true, kind := "Deployment", name := "web",
    selector := none, ports := none,
    template := { labels := some [("app", "web")],
                  containers := some [{ ports := some [{ name := none, containerPort := 8080 }] }] } }

/-- A selectorless Service with one declared port, the C9 counterexample. -/
def selectorlessService : KubernetesResource :=
  { builtIn := true, kind := "Service", name := "s",
    selector := none,
    ports := some [{ name := none, port := 80, targetPort := none }],
    template := { labels := none, containers := none } }

/-- A Service whose only port has targetPort 0, for the C1 counterexample. -/
def zeroTargetService : KubernetesResource :=
  { builtIn := true, kind := "Service", name := "s",
    selector := some [],
    ports := some [{ name := none, port := 1, targetPort := some (.num 0) }],
    template := { labels := none, containers := none } }

/-- A Deployment with a single container port 0, for the C1 counterexample. -/
def zeroPortDeployment : KubernetesResource :=
  { builtIn := true, kind := "Deployment", name := "d",
    selector := none, ports := none,
    template := { labels := some [],
                  containers := some [{ ports := some [{ name := none, containerPort := 0 }] }] } }

lemma any_eq_of_pred_eq {α : Type} {f g : α → Bool} (l : List α)
    (h : ∀ x ∈ l, f x = g x) : l.any f = l.any g := by
  induction l with
  | nil => rfl
  | cons a t ih =>
    simp only [List.any_cons, h a (List.mem_cons_self a t),
      ih (fun x hx => h x (List.mem_cons_of_mem a hx))]

lemma matchesService_eq_specAmended (services : List KubernetesResource)
    (pt : PodTemplate) (ps : ContainerPort) :
    matchesService services pt ps = specSuppressesAmended services pt ps := by
  unfold matchesService specSuppressesAmended
  apply any_eq_of_pred_eq
  intro s _
  congr 1
  apply any_eq_of_pred_eq
  intro sp _
  rcases hsp : sp.targetPort with _ | v
  · rfl
  · cases v with
    | num n =>
      by_cases h : n = ps.containerPort
      · subst h; simp [Bool.and_comm]
      · have hb : (n == ps.containerPort) = false := by
          cases hb : (n == ps.containerPort)
          · rfl
          · exact absurd (eq_of_beq hb) h
        simp [hb]
    | str s => rfl

lemma workloadForwardEntries_eq_spec (services : List KubernetesResource)
    (w : KubernetesResource) :
    workloadForwardEntries services w = specWorkloadEntries services w := by
  unfold workloadForwardEntries specWorkloadEntries
  simp only [matchesService_eq_specAmended]

/-- C1 (amended): the resolver agrees with the spec description everywhere,
with the suppression condition amended to require a nonzero numeric target
port equal to the container port; and on the spec example of a Service web
(selector app=web, port 8080 to 8080) together with a Deployment web (labels
app=web, container port 8080), it returns exactly the single Service entry
for port 8080. -/
theorem getForwardablePorts_matches_spec :
    (∀ rs : List KubernetesResource, getForwardablePorts rs = specResolveAmended rs) ∧
    getForwardablePorts [webService, webDeployment] =
      [{ name := none, protocol := "TCP", targetName := "Service/web", targetPort := 8080 }] := by
  constructor
  · intro rs
    unfold getForwardablePorts specResolveAmended
    rw [show workloadForwardEntries
        (rs.filter (fun r => r.builtIn && r.kind == "Service")) =
      specWorkloadEntries (rs.filter (fun r => r.builtIn && r.kind == "Service")) from
      funext (workloadForwardEntries_eq_spec _)]
  · decide

/-- C1 (counterexample): with a Service whose matching selector declares a
port with targetPort 0 and a Deployment declaring container port 0, the
suppression condition as the claim words it (target port equals container
port) holds, yet the resolver still emits the Deployment entry, so the
claimed if-and-only-if fails at this input. -/
theorem getForwardablePorts_zero_port_cex :
    specSuppresses [zeroTargetService] zeroPortDeployment.template
      { name := none, containerPort := 0 } = true ∧
    ({ name := none, protocol := "TCP", targetName := "Deployment/d", targetPort := 0 } :
      ForwardablePort) ∈ getForwardablePorts [zeroTargetService, zeroPortDeployment] := by
  decide

/-- C9 (counterexample): a Service without a selector but with a declared
port does contribute an entry to the resolver output, refuting the claim
that such a Service contributes nothing. -/
theorem selectorless_service_entry_cex :
    getForwardablePorts [selectorlessService] =
      [{ name := none, protocol := "TCP", targetName := "Service/s", targetPort := 80 }] ∧
    getForwardablePorts [selectorlessService] ≠ [] := by
  decide

/-- C9 (amended): a Service without declared ports contributes no entry, a
workload without declared container ports contributes no entry, and a Service
without a selector still contributes exactly one entry per declared port. -/
theorem no_ports_no_entries (s w : KubernetesResource)
    (services : List KubernetesResource) :
    (s.ports.getD [] = [] → serviceForwardEntries s = []) ∧
    ((w.template.containers.getD []).flatMap (fun c => c.ports.getD []) = [] →
      workloadForwardEntries services w = []) ∧
    (s.selector = none →
      serviceForwardEntries s = (s.ports.getD []).map (fun portSpec =>
        { name := portSpec.name, protocol := "TCP",
          targetName := "Service/" ++ s.name, targetPort := portSpec.port })) := by
  refine ⟨fun h => ?_, fun h => ?_, fun _ => rfl⟩
  · unfold serviceForwardEntries
    rw [h]
    rfl
  · unfold workloadForwardEntries
    rw [h]
    rfl

/-- C9 (witness for the amended theorem). -/
theorem no_ports_no_entries_w :
    serviceForwardEntries
      { builtIn := true, kind := "Service", name := "p", selector := some [("a", "b")],
        ports := none, template := { labels := none, containers := none } } = [] ∧
    workloadForwardEntries []
      { builtIn := true, kind := "Deployment", name := "q", selector := none,
        ports := none, template := { labels := none, containers := some [{ ports := none }] } } = [] ∧
    serviceForwardEntries selectorlessService =
      [{ name := none, protocol := "TCP", targetName := "Service/s", targetPort := 80 }] := by
  refine ⟨(no_ports_no_entries
      { builtIn := true, kind := "Service", name := "p", selector := some [("a", "b")],
        ports := none, template := { labels := none, containers := none } }
      selectorlessService []).1 (by decide),
    (no_ports_no_entries selectorlessService
      { builtIn := true, kind := "Deployment", name := "q", selector := none,
        ports := none, template := { labels := none, containers := some [{ ports := none }] } }
      []).2.1 (by decide), ?_⟩
  have h := (no_ports_no_entries selectorlessService selectorlessService []).2.2 (by decide)
  rw [h]
  decide

/-- A registered port forward descriptor (the PortForward interface); the
process handle is identified by a numeric id. -/
structure PortForward where
  targetResource : String
  port : Nat
  localPort : Nat
  procId : Nat
deriving DecidableEq

/-- The registry key, source: getPortForwardKey. -/
def getPortForwardKey (targetResource : String) (port : Nat) : String :=
  targetResource ++ ":" ++ toString port

/-- The readiness marker the stdout handler looks for. -/
def readinessMarker : String := "Forwarding from "

/-- The fixed settle delay, in milliseconds, between observing readiness and
resolving the caller (the sleep before resolve in the stdout handler). -/
def settleDelayMs : Nat := 250

/-- The fatal-error classification of a stderr line. -/
def isFatalLine (line : String) : Bool :=
  strIncludes line ("error forwarding port") ||
    strIncludes line ("unable to forward") ||
    strIncludes line ("error upgrading connection")

/-- The parameters fixed for one creation: the requested target and remote
port, the freshly allocated local port and the spawned process id. -/
structure CreationParams where
  targetResource : String
  port : Nat
  localPort : Nat
  procId : Nat
deriving DecidableEq

/-- The descriptor the creation builds (the portForward constant of the
Promise body): the requested target and remote port paired with the
allocated local port and the process handle. -/
def CreationParams.pf (c : CreationParams) : PortForward :=
  { targetResource := c.targetResource, port := c.port,
    localPort := c.localPort, procId := c.procId }

/-- The registry key of this creation. -/
def CreationParams.key (c : CreationParams) : String :=
  getPortForwardKey c.targetResource c.port

/-- The outcome of a creation: the promise resolves with a descriptor or
rejects with the exit code and the accumulated output (the RuntimeError). -/
inductive CreationResult where
  | ok (pf : PortForward)
  | err (code : Int) (output : String)
deriving DecidableEq

/-- The state of one in-flight creation: the global registry, the resolved
flag, the accumulated output, the killed flag of the spawned process,
whether the post-readiness settle sleep is scheduled, the promise outcome
(none while the promise is unsettled), and whether an exception escaped an
event handler. -/
structure CreationState where
  registry : List (String × PortForward)
  resolved : Bool
  output : String
  procKilled : Bool
  settleScheduled : Bool
  result : Option CreationResult
  escaped : Bool
deriving DecidableEq

/-- The creation state right after the process is spawned: nothing resolved,
no output, the registry as the surrounding code left it. -/
def initCreation (reg : List (String × PortForward)) : CreationState :=
  { registry := reg, resolved := false, output := "", procKilled := false,
    settleScheduled := false, result := none, escaped := false }

/-- The events the creation reacts to: the close, error, stdout-data and
stderr-data events of the process, and the elapse of the settle sleep. -/
inductive CreationEvent where
  | closeEvt (code : Int)
  | errorEvt
  | stdoutData (line : String)
  | stderrData (line : String)
  | settleElapsed
deriving DecidableEq

/-- One step of the creation, the event handlers of the Promise body
translated clause by clause:
- close: delete the key from the registry; if not resolved, reject with the
  exit code and the accumulated output (a settled promise ignores it);
- error: kill the process if not killed, then re-throw inside the handler,
  which escapes the event callback instead of rejecting the promise;
- stdout data: return early when resolved; otherwise accumulate the line and,
  when it contains the readiness marker, register the descriptor under the
  key, mark resolved and schedule the settle sleep whose elapse resolves the
  promise with the descriptor;
- stderr data: accumulate the line and, on a fatal-error classification,
  kill the process if not killed — nothing else;
- settle elapse: resolve the promise with the descriptor (a settled promise
  ignores it). -/
def creationStep (c : CreationParams) (s : CreationState) : CreationEvent → CreationState
  | .closeEvt code =>
    { s with registry := eraseKey s.registry c.key,
             result := if !s.resolved && s.result.isNone
                       then some (.err code s.output) else s.result }
  | .errorEvt =>
    { s with procKilled := true, escaped := true }
  | .stdoutData line =>
    if s.resolved then s
    else if strIncludes line readinessMarker then
      { s with output := s.output ++ line,
               registry := insertKey s.registry c.key c.pf,
               resolved := true, settleScheduled := true }
    else { s with output := s.output ++ line }
  | .stderrData line =>
    if isFatalLine line then
      { s with output := s.output ++ line, procKilled := true }
    else { s with output := s.output ++ line }
  | .settleElapsed =>
    if s.settleScheduled && s.result.isNone then
      { s with result := some (.ok c.pf), settleScheduled := false }
    else { s with settleScheduled := false }

/-- The tunnel status in the vocabulary of the spec, read off the resolved
flag of the code: Pending until the readiness marker is observed, Active afterwards. -/
inductive TunnelStatus where
  | Pending
  | Active
deriving DecidableEq

/-- Status of a creation state. -/
def tunnelStatus (s : CreationState) : TunnelStatus :=
  if s.resolved then .Active else .Pending

lemma lookupKey_insertKey {α : Type} (reg : List (String × α)) (key : String) (v : α) :
    lookupKey (insertKey reg key v) key = some v := by
  simp [insertKey, lookupKey]

lemma lookupKey_eraseKey {α : Type} (reg : List (String × α)) (key : String) :
    lookupKey (eraseKey reg key) key = none := by
  induction reg with
  | nil => rfl
  | cons e rest ih =>
    by_cases h : e.1 = key
    · simpa [eraseKey, h] using ih
    · have hb : (e.1 == key) = false := by
        cases hb : (e.1 == key)
        · rfl
        · exact absurd (eq_of_beq hb) h
      simpa [eraseKey, lookupKey, hb, h] using ih

/-- C4 (confirmed): from a pending, unsettled creation state, the first
stdout line containing the readiness marker registers the descriptor under
the key, transitions the status Pending to Active and schedules the settle
sleep; when the settle delay elapses the promise resolves with the
descriptor pairing the requested remote port with the allocated local port;
and any later stdout line leaves the state untouched, so no further
resolution occurs. -/
theorem readiness_line_resolves (c : CreationParams) (s : CreationState) (line : String)
    (hres : s.resolved = false) (hr : s.result = none)
    (hm : strIncludes line readinessMarker = true) :
    tunnelStatus s = TunnelStatus.Pending ∧
    tunnelStatus (creationStep c s (.stdoutData line)) = TunnelStatus.Active ∧
    lookupKey (creationStep c s (.stdoutData line)).registry c.key = some c.pf ∧
    (creationStep c s (.stdoutData line)).settleScheduled = true ∧
    (creationStep c (creationStep c s (.stdoutData line)) .settleElapsed).result =
      some (CreationResult.ok
        { targetResource := c.targetResource, port := c.port,
          localPort := c.localPort, procId := c.procId }) ∧
    ∀ line2, creationStep c (creationStep c s (.stdoutData line)) (.stdoutData line2) =
        creationStep c s (.stdoutData line) := by
  refine ⟨by simp [tunnelStatus, hres], ?_, ?_, ?_, ?_, ?_⟩ <;>
    simp [creationStep, hres, hm, hr, tunnelStatus, lookupKey_insertKey, CreationParams.pf]

/-- C4 (witness): a concrete pending creation observing a readiness line. -/
theorem readiness_line_resolves_w :
    tunnelStatus (creationStep ⟨"Service/web", 8080, 30000, 1⟩ (initCreation [])
        (.stdoutData ("Forwarding from 127.0.0.1:30000 -> 8080"))) = TunnelStatus.Active ∧
    lookupKey (creationStep ⟨"Service/web", 8080, 30000, 1⟩ (initCreation [])
        (.stdoutData ("Forwarding from 127.0.0.1:30000 -> 8080"))).registry
      (CreationParams.key ⟨"Service/web", 8080, 30000, 1⟩) =
      some (CreationParams.pf ⟨"Service/web", 8080, 30000, 1⟩) := by
  have h := readiness_line_resolves ⟨"Service/web", 8080, 30000, 1⟩ (initCreation [])
    ("Forwarding from 127.0.0.1:30000 -> 8080") rfl rfl (by decide)
  exact ⟨h.2.1, h.2.2.1⟩

/-- C5 (confirmed): a process close event removes the key from the registry;
if the creation was still pending and the promise unsettled, the promise is
rejected with the exit code and the full accumulated output; if the tunnel
was already resolved (Active), removal from the registry is the only effect
of the handler. -/
theorem close_removes_key_and_rejects_pending (c : CreationParams) (s : CreationState)
    (code : Int) :
    lookupKey (creationStep c s (.closeEvt code)).registry c.key = none ∧
    (s.resolved = false → s.result = none →
      (creationStep c s (.closeEvt code)).result = some (.err code s.output)) ∧
    (s.resolved = true →
      creationStep c s (.closeEvt code) = { s with registry := eraseKey s.registry c.key }) := by
  refine ⟨?_, fun h1 h2 => ?_, fun h => ?_⟩
  · simp [creationStep, lookupKey_eraseKey]
  · simp [creationStep, h1, h2]
  · simp [creationStep, h]

/-- C5 (witness): a concrete pending state rejected by a close with code 7,
and a concrete resolved state where removal is the only effect. -/
theorem close_removes_key_and_rejects_pending_w :
    (creationStep ⟨"Service/web", 8080, 30000, 1⟩
        { registry := [], resolved := false, output := "boom", procKilled := false,
          settleScheduled := false, result := none, escaped := false }
        (.closeEvt 7)).result = some (.err 7 ("boom")) ∧
    creationStep ⟨"Service/web", 8080, 30000, 1⟩
        { registry := [(CreationParams.key ⟨"Service/web", 8080, 30000, 1⟩,
            CreationParams.pf ⟨"Service/web", 8080, 30000, 1⟩)], resolved := true,
          output := "", procKilled := false, settleScheduled := false,
          result := some (.ok (CreationParams.pf ⟨"Service/web", 8080, 30000, 1⟩)),
          escaped := false }
        (.closeEvt 0) =
      { registry := [], resolved := true, output := "", procKilled := false,
        settleScheduled := false,
        result := some (.ok (CreationParams.pf ⟨"Service/web", 8080, 30000, 1⟩)),
        escaped := false } := by
  constructor
  · exact (close_removes_key_and_rejects_pending ⟨"Service/web", 8080, 30000, 1⟩
      { registry := [], resolved := false, output := "boom", procKilled := false,
        settleScheduled := false, result := none, escaped := false } 7).2.1 rfl rfl
  · have h := (close_removes_key_and_rejects_pending ⟨"Service/web", 8080, 30000, 1⟩
      { registry := [(CreationParams.key ⟨"Service/web", 8080, 30000, 1⟩,
          CreationParams.pf ⟨"Service/web", 8080, 30000, 1⟩)], resolved := true,
        output := "", procKilled := false, settleScheduled := false,
        result := some (.ok (CreationParams.pf ⟨"Service/web", 8080, 30000, 1⟩)),
        escaped := false } 0).2.2 rfl
    rw [h]
    decide

/-- C6 (confirmed): a stderr line containing a fatal-error substring leaves
the process killed but does not touch the promise outcome, the registry or
the resolved flag: the handler only accumulates the line and kills, so any
failure or self-healing removal is delivered only by the later close event. -/
theorem fatal_stderr_kills_no_reject (c : CreationParams) (s : CreationState)
    (line : String) (hf : isFatalLine line = true) :
    (creationStep c s (.stderrData line)).procKilled = true ∧
    (creationStep c s (.stderrData line)).result = s.result ∧
    (creationStep c s (.stderrData line)).registry = s.registry ∧
    (creationStep c s (.stderrData line)).resolved = s.resolved ∧
    (creationStep c s (.stderrData line)).output = s.output ++ line := by
  refine ⟨?_, ?_, ?_, ?_, ?_⟩ <;> simp [creationStep, hf]

/-- C6 (witness): a concrete fatal stderr line on a pending creation. -/
theorem fatal_stderr_kills_no_reject_w :
    (creationStep ⟨"Service/web", 8080, 30000, 1⟩ (initCreation [])
        (.stderrData ("E0101 error forwarding port 8080"))).procKilled = true ∧
    (creationStep ⟨"Service/web", 8080, 30000, 1⟩ (initCreation [])
        (.stderrData ("E0101 error forwarding port 8080"))).result = none := by
  have h := fatal_stderr_kills_no_reject ⟨"Service/web", 8080, 30000, 1⟩ (initCreation [])
    ("E0101 error forwarding port 8080") (by decide)
  exact ⟨h.1, h.2.1⟩

/-- C8 (code bug): on a process error event during a pending creation the
handler kills the process and then re-throws inside the event callback, so
the exception escapes the handler and the acquire promise is left unsettled
rather than rejected; the caller is only failed later, indirectly, through
the close handler.  Evaluated here at a concrete freshly spawned state. -/
theorem error_event_escapes_without_reject :
    (creationStep ⟨"Service/web", 8080, 30000, 1⟩ (initCreation []) .errorEvt).procKilled
        = true ∧
    (creationStep ⟨"Service/web", 8080, 30000, 1⟩ (initCreation []) .errorEvt).result
        = none ∧
    (creationStep ⟨"Service/web", 8080, 30000, 1⟩ (initCreation []) .errorEvt).escaped
        = true := by
  decide

/-- C3 (counterexample): right after the process is spawned — readiness still
being awaited, status Pending — the registry holds no entry for the key, and
it still holds none after a non-marker stdout line; the descriptor is not
inserted in Pending state before readiness is awaited, contrary to the
claim. -/
theorem creation_pending_entry_cex :
    tunnelStatus (initCreation []) = TunnelStatus.Pending ∧
    lookupKey (initCreation []).registry
      (CreationParams.key ⟨"Service/web", 8080, 30000, 1⟩) = none ∧
    tunnelStatus (creationStep ⟨"Service/web", 8080, 30000, 1⟩ (initCreation [])
      (.stdoutData ("Starting to serve"))) = TunnelStatus.Pending ∧
    lookupKey (creationStep ⟨"Service/web", 8080, 30000, 1⟩ (initCreation [])
        (.stdoutData ("Starting to serve"))).registry
      (CreationParams.key ⟨"Service/web", 8080, 30000, 1⟩) = none := by
  decide

/-- C3 (amended): the new descriptor enters the registry exactly at the step
where the readiness marker is first observed — no step that leaves the
creation unresolved inserts it — and the promise resolves successfully only
through the settle step scheduled by that readiness observation, the
critical section being held until the promise settles, so a concurrent later
acquire observes a completed entry rather than a Pending one. -/
theorem descriptor_inserted_only_at_readiness (c : CreationParams) (s : CreationState)
    (e : CreationEvent) :
    ((creationStep c s e).resolved = false →
      lookupKey (creationStep c s e).registry c.key = some c.pf →
      lookupKey s.registry c.key = some c.pf) ∧
    (s.resolved = false → ∀ line, strIncludes line readinessMarker = true →
      (creationStep c s (.stdoutData line)).resolved = true ∧
      lookupKey (creationStep c s (.stdoutData line)).registry c.key = some c.pf) ∧
    (∀ pf2, s.settleScheduled = false →
      (creationStep c s e).result = some (.ok pf2) → s.result = some (.ok pf2)) := by
  refine ⟨?_, fun h line hm => ?_, fun pf2 hsch => ?_⟩
  · cases e with
    | closeEvt code =>
      intro _ hl
      rw [creationStep] at hl
      simp only [lookupKey_eraseKey] at hl
      exact absurd hl (by simp)
    | errorEvt => intro _ hl; exact hl
    | stdoutData line =>
      by_cases hres : s.resolved
      · intro _ hl
        simpa [creationStep, hres] using hl
      · by_cases hm : strIncludes line readinessMarker
        · intro habs
          simp [creationStep, hres, hm] at habs
        · intro _ hl
          simpa [creationStep, hres, hm] using hl
    | stderrData line =>
      intro _ hl
      by_cases hf : isFatalLine line
      · simpa [creationStep, hf] using hl
      · simpa [creationStep, hf] using hl
    | settleElapsed =>
      intro _ hl
      by_cases hs : s.settleScheduled && s.result.isNone
      · simpa [creationStep, hs] using hl
      · simpa [creationStep, hs] using hl
  · constructor <;> simp [creationStep, h, hm, lookupKey_insertKey]
  · cases e with
    | closeEvt code =>
      intro hr
      by_cases hcond : !s.resolved && s.result.isNone
      · simp [creationStep, hcond] at hr
      · simpa [creationStep, hcond] using hr
    | errorEvt => intro hr; simpa [creationStep] using hr
    | stdoutData line =>
      intro hr
      by_cases hres : s.resolved
      · simpa [creationStep, hres] using hr
      · by_cases hm : strIncludes line readinessMarker
        · simpa [creationStep, hres, hm] using hr
        · simpa [creationStep, hres, hm] using hr
    | stderrData line =>
      intro hr
      by_cases hf : isFatalLine line
      · simpa [creationStep, hf] using hr
      · simpa [creationStep, hf] using hr
    | settleElapsed =>
      intro hr
      simpa [creationStep, hsch] using hr

/-- C3 (witness for the amended theorem): concrete instances of the three
conjuncts. -/
theorem descriptor_inserted_only_at_readiness_w :
    lookupKey (initCreation [(CreationParams.key ⟨"Service/web", 8080, 30000, 1⟩,
        CreationParams.pf ⟨"Service/web", 8080, 30000, 1⟩)]).registry
      (CreationParams.key ⟨"Service/web", 8080, 30000, 1⟩) =
      some (CreationParams.pf ⟨"Service/web", 8080, 30000, 1⟩) ∧
    (creationStep ⟨"Service/web", 8080, 30000, 1⟩ (initCreation [])
        (.stdoutData ("Forwarding from 127.0.0.1:30000"))).resolved = true ∧
    ({ registry := [], resolved := true, output := "", procKilled := false,
       settleScheduled := false,
       result := some (.ok (CreationParams.pf ⟨"Service/web", 8080, 30000, 1⟩)),
       escaped := false } : CreationState).result =
      some (.ok (CreationParams.pf ⟨"Service/web", 8080, 30000, 1⟩)) := by
  refine ⟨?_, ?_, ?_⟩
  · exact (descriptor_inserted_only_at_readiness ⟨"Service/web", 8080, 30000, 1⟩
      (initCreation [(CreationParams.key ⟨"Service/web", 8080, 30000, 1⟩,
        CreationParams.pf ⟨"Service/web", 8080, 30000, 1⟩)])
      (.stderrData ("noise"))).1 (by decide) (by decide)
  · exact ((descriptor_inserted_only_at_readiness ⟨"Service/web", 8080, 30000, 1⟩
      (initCreation []) .settleElapsed).2.1 rfl
      ("Forwarding from 127.0.0.1:30000") (by decide)).1
  · exact (descriptor_inserted_only_at_readiness ⟨"Service/web", 8080, 30000, 1⟩
      { registry := [], resolved := true, output := "", procKilled := false,
        settleScheduled := false,
        result := some (.ok (CreationParams.pf ⟨"Service/web", 8080, 30000, 1⟩)),
        escaped := false }
      (.stderrData ("noise"))).2.2
      (CreationParams.pf ⟨"Service/web", 8080, 30000, 1⟩) rfl (by decide)

/-- The global registry state: the registered port forwards, the set of
process ids whose kill succeeded (the killed flag of the handle), the set of
process ids for which the kill call fails (reporting failure through its
return value, which the source ignores), the number of processes spawned so
far, and the allocators for fresh local ports and process ids. -/
structure ForwardRegistryState where
  registry : List (String × PortForward)
  killedProcs : List Nat
  killFails : List Nat
  spawned : Nat
  nextLocalPort : Nat
  nextProcId : Nat
deriving DecidableEq

/-- proc.kill(): marks the process killed unless the kill call fails, in
which case the state is unchanged and the failure is only reported through
the ignored return value. -/
def killProc (st : ForwardRegistryState) (id : Nat) : ForwardRegistryState :=
  if id ∈ st.killFails then st
  else { st with killedProcs := id :: st.killedProcs }

/-- killPortForward from the source: look the key up in the registry and, if
a forward is registered and its process not yet killed, kill it. -/
def killPortForward (st : ForwardRegistryState) (targetResource : String)
    (targetPort : Nat) : ForwardRegistryState :=
  match lookupKey st.registry (getPortForwardKey targetResource targetPort) with
  | none => st
  | some fwd => if fwd.procId ∈ st.killedProcs then st else killProc st fwd.procId

/-- One iteration of the kill-port-forward-procs cleanup loop. -/
def shutdownStep (st : ForwardRegistryState) (e : String × PortForward) :
    ForwardRegistryState :=
  killPortForward st e.2.targetResource e.2.port

/-- The kill-port-forward-procs cleanup function from the source: iterate
over every registered forward and invoke killPortForward on its target and
port.  killPortForward never mutates the registry, so folding over the
snapshot matches the source loop. -/
def killPortForwardProcs (st : ForwardRegistryState) : ForwardRegistryState :=
  st.registry.foldl shutdownStep st

/-- The body of getPortForward past the reuse check, summarised at its
success path: allocate a fresh local port, spawn the process, and — once the
readiness marker has been observed and the settle sleep elapsed, all of
which happens while the global lock is still held — the new descriptor is
registered under the key and returned. -/
def spawnPortForward (st : ForwardRegistryState) (targetResource : String)
    (port : Nat) : ForwardRegistryState × PortForward :=
  ({ st with
      registry := insertKey st.registry (getPortForwardKey targetResource port)
        { targetResource := targetResource, port := port,
          localPort := st.nextLocalPort, procId := st.nextProcId },
      spawned := st.spawned + 1,
      nextLocalPort := st.nextLocalPort + 1,
      nextProcId := st.nextProcId + 1 },
    { targetResource := targetResource, port := port,
      localPort := st.nextLocalPort, procId := st.nextProcId })

/-- getPortForward as executed under the global AsyncLock, success path: if a
forward is registered for the key and its process is not killed, return it
unchanged; otherwise create a new one.  Because every call holds the single
global lock for its whole body, concurrent calls execute as a sequence of
these steps. -/
def getPortForwardLocked (st : ForwardRegistryState) (targetResource : String)
    (port : Nat) : ForwardRegistryState × PortForward :=
  match lookupKey st.registry (getPortForwardKey targetResource port) with
  | some registered =>
    if registered.procId ∈ st.killedProcs then spawnPortForward st targetResource port
    else (st, registered)
  | none => spawnPortForward st targetResource port

/-- A sequence of n lock-serialised getPortForward calls for the same key,
returning the final state and the descriptor of every caller. -/
def getPortForwardN (targetResource : String) (port : Nat) :
    Nat → ForwardRegistryState → ForwardRegistryState × List PortForward
  | 0, st => (st, [])
  | n + 1, st =>
    ((getPortForwardN targetResource port n
        (getPortForwardLocked st targetResource port).1).1,
      (getPortForwardLocked st targetResource port).2 ::
        (getPortForwardN targetResource port n
          (getPortForwardLocked st targetResource port).1).2)

lemma getPortForwardN_steady (targetResource : String) (port : Nat)
    (pf : PortForward) :
    ∀ (n : Nat) (st : ForwardRegistryState),
      lookupKey st.registry (getPortForwardKey targetResource port) = some pf →
      pf.procId ∉ st.killedProcs →
      getPortForwardN targetResource port n st = (st, List.replicate n pf) := by
  intro n
  induction n with
  | zero => intro st _ _; rfl
  | succ m ih =>
    intro st hl hk
    have hone : getPortForwardLocked st targetResource port = (st, pf) := by
      unfold getPortForwardLocked
      rw [hl]
      simp [hk]
    rw [getPortForwardN, hone]
    simp [ih st hl hk, List.replicate_succ]

/-- C2 (confirmed): if the registry holds a descriptor for the key whose
process is not killed, getPortForward returns that descriptor and leaves the
whole state — registry, spawn count, allocators — unchanged; and from a
state with no entry for the key and nothing killed, any number of
lock-serialised calls spawn exactly one process and every caller receives
the same descriptor with the same local port. -/
theorem getPortForward_reuse_single_spawn (st : ForwardRegistryState)
    (targetResource : String) (port : Nat) :
    (∀ pf, lookupKey st.registry (getPortForwardKey targetResource port) = some pf →
      pf.procId ∉ st.killedProcs →
      getPortForwardLocked st targetResource port = (st, pf)) ∧
    (st.killedProcs = [] →
      lookupKey st.registry (getPortForwardKey targetResource port) = none →
      ∀ n : Nat,
        (getPortForwardN targetResource port (n + 1) st).1.spawned = st.spawned + 1 ∧
        ∀ pf ∈ (getPortForwardN targetResource port (n + 1) st).2,
          pf = ({ targetResource := targetResource, port := port,
                  localPort := st.nextLocalPort, procId := st.nextProcId } : PortForward)) := by
  constructor
  · intro pf hl hk
    unfold getPortForwardLocked
    rw [hl]
    simp [hk]
  · intro hkill hnone n
    have hone : getPortForwardLocked st targetResource port =
        spawnPortForward st targetResource port := by
      unfold getPortForwardLocked
      rw [hnone]
    have hsteady := getPortForwardN_steady targetResource port
      { targetResource := targetResource, port := port,
        localPort := st.nextLocalPort, procId := st.nextProcId }
      n (spawnPortForward st targetResource port).1
      (by simp [spawnPortForward, lookupKey_insertKey])
      (by simp [spawnPortForward, hkill])
    rw [getPortForwardN, hone, hsteady]
    constructor
    · simp [spawnPortForward]
    · intro pf hmem
      simp only [spawnPortForward, List.mem_cons, List.mem_replicate] at hmem
      rcases hmem with h | ⟨_, h⟩ <;> exact h

/-- C2 (witness): a concrete reuse on a one-entry registry, and three
serialised calls on an empty registry spawning exactly once with every
caller seeing local port 30000. -/
theorem getPortForward_reuse_single_spawn_w :
    getPortForwardLocked
        { registry := [("Service/web:8080",
            { targetResource := "Service/web", port := 8080, localPort := 30000, procId := 1 })],
          killedProcs := [], killFails := [], spawned := 1,
          nextLocalPort := 30001, nextProcId := 2 } "Service/web" 8080 =
      ({ registry := [("Service/web:8080",
            { targetResource := "Service/web", port := 8080, localPort := 30000, procId := 1 })],
          killedProcs := [], killFails := [], spawned := 1,
          nextLocalPort := 30001, nextProcId := 2 },
        { targetResource := "Service/web", port := 8080, localPort := 30000, procId := 1 }) ∧
    (getPortForwardN ("Service/web") 8080 3
        { registry := [], killedProcs := [], killFails := [], spawned := 0,
          nextLocalPort := 30000, nextProcId := 1 }).1.spawned = 1 ∧
    ∀ pf ∈ (getPortForwardN ("Service/web") 8080 3
        { registry := [], killedProcs := [], killFails := [], spawned := 0,
          nextLocalPort := 30000, nextProcId := 1 }).2,
      pf = ({ targetResource := "Service/web", port := 8080,
              localPort := 30000, procId := 1 } : PortForward) := by
  refine ⟨?_, ?_, ?_⟩
  · exact (getPortForward_reuse_single_spawn _ ("Service/web") 8080).1
      { targetResource := "Service/web", port := 8080, localPort := 30000, procId := 1 }
      (by decide) (by decide)
  · exact ((getPortForward_reuse_single_spawn
      { registry := [], killedProcs := [], killFails := [], spawned := 0,
        nextLocalPort := 30000, nextProcId := 1 } "Service/web" 8080).2 rfl rfl 2).1
  · exact ((getPortForward_reuse_single_spawn
      { registry := [], killedProcs := [], killFails := [], spawned := 0,
        nextLocalPort := 30000, nextProcId := 1 } "Service/web" 8080).2 rfl rfl 2).2

lemma killProc_registry (st : ForwardRegistryState) (id : Nat) :
    (killProc st id).registry = st.registry := by
  unfold killProc
  split <;> rfl

lemma killProc_killFails (st : ForwardRegistryState) (id : Nat) :
    (killProc st id).killFails = st.killFails := by
  unfold killProc
  split <;> rfl

lemma killPortForward_registry (st : ForwardRegistryState) (t : String) (p : Nat) :
    (killPortForward st t p).registry = st.registry := by
  unfold killPortForward
  split
  · rfl
  · split
    · rfl
    · exact killProc_registry st _

lemma killPortForward_killFails (st : ForwardRegistryState) (t : String) (p : Nat) :
    (killPortForward st t p).killFails = st.killFails := by
  unfold killPortForward
  split
  · rfl
  · split
    · rfl
    · exact killProc_killFails st _

lemma killPortForward_killed_mono (st : ForwardRegistryState) (t : String) (p : Nat)
    (id : Nat) (h : id ∈ st.killedProcs) : id ∈ (killPortForward st t p).killedProcs := by
  unfold killPortForward
  split
  · exact h
  · split
    · exact h
    · unfold killProc
      split
      · exact h
      · exact List.mem_cons_of_mem _ h

/-- A (target, port) slot needs no further kill: either nothing is registered
under its key, or the registered process is already killed, or its kill call
fails anyway. -/
def forwardDone (st : ForwardRegistryState) (t : String) (p : Nat) : Prop :=
  ∀ fwd, lookupKey st.registry (getPortForwardKey t p) = some fwd →
    fwd.procId ∈ st.killedProcs ∨ fwd.procId ∈ st.killFails

lemma killPortForward_of_done (st : ForwardRegistryState) (t : String) (p : Nat)
    (h : forwardDone st t p) : killPortForward st t p = st := by
  unfold killPortForward
  split
  · rfl
  · rename_i fwd hl
    rcases h fwd hl with hk | hf
    · simp [hk]
    · split
      · rfl
      · unfold killProc
        simp [hf]

lemma killPortForward_makes_done (st : ForwardRegistryState) (t : String) (p : Nat) :
    forwardDone (killPortForward st t p) t p := by
  intro fwd hl
  rw [killPortForward_registry] at hl
  unfold killPortForward
  rw [hl]
  show fwd.procId ∈
      (if fwd.procId ∈ st.killedProcs then st else killProc st fwd.procId).killedProcs ∨
    fwd.procId ∈
      (if fwd.procId ∈ st.killedProcs then st else killProc st fwd.procId).killFails
  by_cases hk : fwd.procId ∈ st.killedProcs
  · rw [if_pos hk]
    exact Or.inl hk
  · rw [if_neg hk]
    unfold killProc
    by_cases hf : fwd.procId ∈ st.killFails
    · rw [if_pos hf]
      exact Or.inr hf
    · rw [if_neg hf]
      exact Or.inl (List.mem_cons_self _ _)

lemma killPortForward_preserves_done (st : ForwardRegistryState) (t p t2 : _)
    (p2 : Nat) (h : forwardDone st t p) : forwardDone (killPortForward st t2 p2) t p := by
  intro fwd hl
  rw [killPortForward_registry] at hl
  rcases h fwd hl with hk | hf
  · exact Or.inl (killPortForward_killed_mono st t2 p2 _ hk)
  · rw [killPortForward_killFails]
    exact Or.inr hf

lemma foldl_shutdownStep_preserves_done (t : String) (p : Nat) :
    ∀ (l : List (String × PortForward)) (st : ForwardRegistryState),
      forwardDone st t p → forwardDone (l.foldl shutdownStep st) t p := by
  intro l
  induction l with
  | nil => intro st h; exact h
  | cons e rest ih =>
    intro st h
    exact ih _ (killPortForward_preserves_done st t p _ _ h)

lemma foldl_shutdownStep_makes_done :
    ∀ (l : List (String × PortForward)) (st : ForwardRegistryState) (e : String × PortForward),
      e ∈ l → forwardDone (l.foldl shutdownStep st) e.2.targetResource e.2.port := by
  intro l
  induction l with
  | nil => intro st e he; cases he
  | cons a rest ih =>
    intro st e he
    rcases List.mem_cons.mp he with h | h
    · subst h
      exact foldl_shutdownStep_preserves_done _ _ rest _
        (killPortForward_makes_done st _ _)
    · exact ih _ e h

lemma foldl_shutdownStep_of_done :
    ∀ (l : List (String × PortForward)) (st : ForwardRegistryState),
      (∀ e ∈ l, forwardDone st e.2.targetResource e.2.port) →
      l.foldl shutdownStep st = st := by
  intro l
  induction l with
  | nil => intro st _; rfl
  | cons a rest ih =>
    intro st h
    have ha : shutdownStep st a = st :=
      killPortForward_of_done st _ _ (h a (List.mem_cons_self a rest))
    rw [List.foldl_cons, ha]
    exact ih st (fun e he => h e (List.mem_cons_of_mem a he))

lemma foldl_shutdownStep_registry :
    ∀ (l : List (String × PortForward)) (st : ForwardRegistryState),
      (l.foldl shutdownStep st).registry = st.registry := by
  intro l
  induction l with
  | nil => intro st; rfl
  | cons a rest ih =>
    intro st
    rw [List.foldl_cons, ih]
    exact killPortForward_registry st _ _

lemma foldl_shutdownStep_killFails :
    ∀ (l : List (String × PortForward)) (st : ForwardRegistryState),
      (l.foldl shutdownStep st).killFails = st.killFails := by
  intro l
  induction l with
  | nil => intro st; rfl
  | cons a rest ih =>
    intro st
    rw [List.foldl_cons, ih]
    exact killPortForward_killFails st _ _

/-- C7 (confirmed): the cleanup hook is idempotent and best-effort: running
it twice equals running it once; and every registered forward whose process
the kill call can reach ends up killed, regardless of kill failures on any
other registered forward — a failed kill only reports through its ignored
return value and never stops the iteration. -/
theorem shutdown_idempotent_best_effort (st : ForwardRegistryState) :
    killPortForwardProcs (killPortForwardProcs st) = killPortForwardProcs st ∧
    ∀ e ∈ st.registry,
      lookupKey st.registry (getPortForwardKey e.2.targetResource e.2.port) = some e.2 →
      e.2.procId ∉ st.killFails →
      e.2.procId ∈ (killPortForwardProcs st).killedProcs := by
  constructor
  · unfold killPortForwardProcs
    rw [foldl_shutdownStep_registry st.registry st]
    exact foldl_shutdownStep_of_done st.registry _
      (fun e he => foldl_shutdownStep_makes_done st.registry st e he)
  · intro e he hl hnf
    have hdone := foldl_shutdownStep_makes_done st.registry st e he
    have hl2 : lookupKey (killPortForwardProcs st).registry
        (getPortForwardKey e.2.targetResource e.2.port) = some e.2 := by
      unfold killPortForwardProcs
      rw [foldl_shutdownStep_registry st.registry st]
      exact hl
    rcases hdone e.2 hl2 with hk | hf
    · exact hk
    · exfalso
      apply hnf
      rw [foldl_shutdownStep_killFails] at hf
      exact hf

/-- A concrete registry with two forwards whose first kill call fails. -/
def shutdownDemoState : ForwardRegistryState :=
  { registry :=
      [("Service/a:1",
        { targetResource := "Service/a", port := 1, localPort := 30000, procId := 1 }),
       ("Service/b:2",
        { targetResource := "Service/b", port := 2, localPort := 30001, procId := 2 })],
    killedProcs := [], killFails := [1], spawned := 2,
    nextLocalPort := 30002, nextProcId := 3 }

/-- C7 (witness): on the concrete two-entry registry the hook is idempotent,
and the second forward is killed even though killing the first fails. -/
theorem shutdown_idempotent_best_effort_w :
    killPortForwardProcs (killPortForwardProcs shutdownDemoState) =
      killPortForwardProcs shutdownDemoState ∧
    2 ∈ (killPortForwardProcs shutdownDemoState).killedProcs := by
  constructor
  · exact (shutdown_idempotent_best_effort shutdownDemoState).1
  · exact (shutdown_idempotent_best_effort shutdownDemoState).2
      ("Service/b:2",
        { targetResource := "Service/b", port := 2, localPort := 30001, procId := 2 })
      (by decide) (by decide) (by decide)

lemma matchesService_pred_iff (cp : Nat) (sp : ServicePort) :
    ((match sp.targetPort with
      | some (.num n) => !(n == 0) && n == cp
      | _ => false) = true) ↔ sp.targetPort = some (.num cp) ∧ cp ≠ 0 := by
  rcases hsp : sp.targetPort with _ | v
  · simp
  · cases v with
    | num n =>
      simp only [Option.some.injEq, IntOrString.num.injEq, Bool.and_eq_true,
        Bool.not_eq_true', beq_eq_false_iff_ne, beq_iff_eq]
      omega
    | str t => simp

lemma matchesService_iff (services : List KubernetesResource) (pt : PodTemplate)
    (ps : ContainerPort) :
    matchesService services pt ps = true ↔
      ∃ s ∈ services,
        matchSelector (s.selector.getD []) (pt.labels.getD []) = true ∧
        ∃ sp ∈ s.ports.getD [],
          sp.targetPort = some (.num ps.containerPort) ∧ ps.containerPort ≠ 0 := by
  simp only [matchesService, List.any_eq_true, Bool.and_eq_true, matchesService_pred_iff]

/-- Every declared target port of every Service is at most a name or zero:
no Service port carries a nonzero numeric target port. -/
def allTargetsNamedOrZero (services : List KubernetesResource) : Bool :=
  services.all (fun s => (s.ports.getD []).all (fun sp =>
    match sp.targetPort with
    | some (.num n) => n == 0
    | _ => true))

lemma matchesService_false_of_namedOrZero (services : List KubernetesResource)
    (pt : PodTemplate) (ps : ContainerPort)
    (hall : allTargetsNamedOrZero services = true) :
    matchesService services pt ps = false := by
  cases hms : matchesService services pt ps
  · rfl
  · exfalso
    rcases (matchesService_iff services pt ps).mp hms with
      ⟨s, hs, _, sp, hsp, htp, hcp⟩
    have h1 := (List.all_eq_true.mp hall) s hs
    have h2 := (List.all_eq_true.mp h1) sp hsp
    rw [htp] at h2
    have h3 : (ps.containerPort == 0) = true := h2
    exact hcp (eq_of_beq h3)

/-- C10 (confirmed): suppression requires a Service port whose target port is
a nonzero number strictly equal to the container port — matchesService holds
exactly when some Service with a matching selector declares such a port; in
particular, when every Service port declares its target port only as a name
or as zero, matchesService is false for every container port, and the port
is then always emitted under the own target name of the workload. -/
theorem matchesService_characterization (services : List KubernetesResource)
    (pt : PodTemplate) (ps : ContainerPort) :
    (matchesService services pt ps = true ↔
      ∃ s ∈ services,
        matchSelector (s.selector.getD []) (pt.labels.getD []) = true ∧
        ∃ sp ∈ s.ports.getD [],
          sp.targetPort = some (.num ps.containerPort) ∧ ps.containerPort ≠ 0) ∧
    (allTargetsNamedOrZero services = true →
      matchesService services pt ps = false) ∧
    (∀ w : KubernetesResource,
      allTargetsNamedOrZero services = true →
      ps ∈ (w.template.containers.getD []).flatMap (fun c => c.ports.getD []) →
      ({ name := ps.name, protocol := "TCP",
         targetName := w.kind ++ "/" ++ w.name,
         targetPort := ps.containerPort } : ForwardablePort) ∈
        workloadForwardEntries services w) := by
  refine ⟨matchesService_iff services pt ps,
    matchesService_false_of_namedOrZero services pt ps, ?_⟩
  intro w hall hmem
  unfold workloadForwardEntries
  apply List.mem_map.mpr
  refine ⟨ps, ?_, rfl⟩
  apply List.mem_filter.mpr
  refine ⟨hmem, ?_⟩
  rw [matchesService_false_of_namedOrZero services w.template ps hall]
  rfl

/-- A Service with a matching selector whose single port declares its target
only by name, for the C10 witness. -/
def namedTargetService : KubernetesResource :=
  { builtIn := true, kind := "Service", name := "web",
    selector := some [("app", "web")],
    ports := some [{ name := some ("http"), port := 8080,
                     targetPort := some (.str ("http")) }],
    template := { labels := none, containers := none } }

/-- C10 (witness): against a matching Service whose only target port is
named, the Deployment container port 8080 is not suppressed and its entry is
emitted under the own target name of the Deployment. -/
theorem matchesService_characterization_w :
    matchesService [namedTargetService] webDeployment.template
      { name := none, containerPort := 8080 } = false ∧
    ({ name := none, protocol := "TCP", targetName := "Deployment/web",
       targetPort := 8080 } : ForwardablePort) ∈
      workloadForwardEntries [namedTargetService] webDeployment := by
  constructor
  · exact (matchesService_characterization [namedTargetService] webDeployment.template
      { name := none, containerPort := 8080 }).2.1 (by decide)
  · exact (matchesService_characterization [namedTargetService] webDeployment.template
      { name := none, containerPort := 8080 }).2.2 webDeployment (by decide) (by decide)
